import Mathlib

/-!
Verification of the options payoff engine of Options-Payoff-PnL-Graph.

The repository carries two engine modules, both embedded here over ℚ
(the Python code computes with floats on exact decimal inputs; rationals
model the intended real-number arithmetic).

* `src/src/strategy/option_strategies.py` defines the class
  `OptionStrategies` twice; in Python the second class definition
  (lines 98-229) shadows the first, so the second one is the effective
  class.  It stores strike, premium, expiration and current time, and
  every strategy method takes only a spot price.  It is embedded in
  namespace `SEngine`.

* `src/src/option_strategies.py` stores only a strike; every strategy
  method takes premiums (and, for multi-leg strategies, per-leg strikes)
  explicitly, and multi-leg methods reassign `self.strike` between leg
  evaluations.  It is embedded in namespace `PerLeg` with explicit state
  passing: a method that mutates `self.strike` returns the new state.
-/

namespace SEngine

/-- Contract state of the effective `OptionStrategies` class of
`src/src/strategy/option_strategies.py` (lines 98-106): strike, premium,
expiration and current time.  The two time fields are UTC timestamps. -/
structure Contract where
  strike : ℚ
  premium : ℚ
  expiration : ℚ
  current : ℚ
deriving DecidableEq

/-- `expired()` (lines 108-110): `self.current > self.expiration`. -/
def expired (c : Contract) : Bool := decide (c.expiration < c.current)

/-- `long_call` (lines 114-118). -/
def long_call (c : Contract) (spot : ℚ) : ℚ :=
  if expired c then -c.premium else max (spot - c.strike) 0 - c.premium

/-- `long_put` (lines 120-124). -/
def long_put (c : Contract) (spot : ℚ) : ℚ :=
  if expired c then -c.premium else max (c.strike - spot) 0 - c.premium

/-- `short_call` (lines 126-130). -/
def short_call (c : Contract) (spot : ℚ) : ℚ :=
  if expired c then c.premium else min (c.premium - (spot - c.strike)) c.premium

/-- `short_put` (lines 132-136). -/
def short_put (c : Contract) (spot : ℚ) : ℚ :=
  if expired c then c.premium else min (c.premium - (c.strike - spot)) c.premium

/-- `long_straddle` (lines 138-140). -/
def long_straddle (c : Contract) (spot : ℚ) : ℚ :=
  long_call c spot + long_put c spot

/-- `short_straddle` (lines 142-144). -/
def short_straddle (c : Contract) (spot : ℚ) : ℚ :=
  short_call c spot + short_put c spot

/-- `long_synthetic` (lines 146-148). -/
def long_synthetic (c : Contract) (spot : ℚ) : ℚ :=
  long_call c spot + short_put c spot

/-- `short_synthetic` (lines 150-152). -/
def short_synthetic (c : Contract) (spot : ℚ) : ℚ :=
  short_call c spot + long_put c spot

/-- `bull_call_spread` (lines 154-156). -/
def bull_call_spread (c : Contract) (spot : ℚ) : ℚ :=
  long_call c spot - short_call c (spot + 10)

/-- `bull_put_spread` (lines 158-160). -/
def bull_put_spread (c : Contract) (spot : ℚ) : ℚ :=
  short_put c spot + long_put c (spot - 10)

/-- `bear_call_spread` (lines 162-164). -/
def bear_call_spread (c : Contract) (spot : ℚ) : ℚ :=
  short_call c spot + long_call c (spot + 10)

/-- `bear_put_spread` (lines 166-168). -/
def bear_put_spread (c : Contract) (spot : ℚ) : ℚ :=
  long_put c spot - short_put c (spot - 10)

/-- `call_backspread` (lines 170-172). -/
def call_backspread (c : Contract) (spot : ℚ) : ℚ :=
  -2 * short_call c spot + 3 * long_call c (spot + 10)

/-- `put_backspread` (lines 174-176). -/
def put_backspread (c : Contract) (spot : ℚ) : ℚ :=
  -2 * short_put c spot + 3 * long_put c (spot - 10)

/-- `long_combo` (lines 178-180). -/
def long_combo (c : Contract) (spot : ℚ) : ℚ :=
  long_call c (spot + 10) + short_put c (spot - 10)

/-- `long_strangle` (lines 182-184). -/
def long_strangle (c : Contract) (spot : ℚ) : ℚ :=
  long_call c (spot + 10) + long_put c (spot - 10)

/-- `short_strangle` (lines 186-188). -/
def short_strangle (c : Contract) (spot : ℚ) : ℚ :=
  short_call c (spot + 10) + short_put c (spot - 10)

/-- `strap` (lines 190-192). -/
def strap (c : Contract) (spot : ℚ) : ℚ :=
  2 * long_call c spot + long_put c spot

/-- `strip` (lines 194-196). -/
def strip (c : Contract) (spot : ℚ) : ℚ :=
  long_call c spot + 2 * long_put c spot

/-- `long_call_butterfly` (lines 198-203). -/
def long_call_butterfly (c : Contract) (spot : ℚ) : ℚ :=
  long_call c (spot - 10) - 2 * short_call c spot + long_call c (spot + 10)

/-- `long_put_butterfly` (lines 205-210). -/
def long_put_butterfly (c : Contract) (spot : ℚ) : ℚ :=
  long_put c (spot + 10) - 2 * short_put c spot + long_put c (spot - 10)

/-- `covered_call` (lines 212-216): stock ownership profit plus short call. -/
def covered_call (c : Contract) (spot : ℚ) : ℚ :=
  (spot - c.strike) + short_call c spot

/-- `covered_put` (lines 218-222): shorted stock profit plus short put. -/
def covered_put (c : Contract) (spot : ℚ) : ℚ :=
  (c.strike - spot) + short_put c spot

/-- `collar` (lines 224-229): stock ownership profit plus long put plus short call. -/
def collar (c : Contract) (spot : ℚ) : ℚ :=
  (spot - c.strike) + long_put c spot + short_call c spot

/-- Names of the 24 strategy methods of the effective class, each of which
takes exactly one spot argument. -/
inductive SStrat where
  | long_call | long_put | short_call | short_put
  | long_straddle | short_straddle | long_synthetic | short_synthetic
  | bull_call_spread | bull_put_spread | bear_call_spread | bear_put_spread
  | call_backspread | put_backspread | long_combo
  | long_strangle | short_strangle | strap | strip
  | long_call_butterfly | long_put_butterfly
  | covered_call | covered_put | collar
deriving DecidableEq

/-- Dispatch a strategy method of the effective class by name. -/
def apply (c : Contract) : SStrat → ℚ → ℚ
  | .long_call => long_call c
  | .long_put => long_put c
  | .short_call => short_call c
  | .short_put => short_put c
  | .long_straddle => long_straddle c
  | .short_straddle => short_straddle c
  | .long_synthetic => long_synthetic c
  | .short_synthetic => short_synthetic c
  | .bull_call_spread => bull_call_spread c
  | .bull_put_spread => bull_put_spread c
  | .bear_call_spread => bear_call_spread c
  | .bear_put_spread => bear_put_spread c
  | .call_backspread => call_backspread c
  | .put_backspread => put_backspread c
  | .long_combo => long_combo c
  | .long_strangle => long_strangle c
  | .short_strangle => short_strangle c
  | .strap => strap c
  | .strip => strip c
  | .long_call_butterfly => long_call_butterfly c
  | .long_put_butterfly => long_put_butterfly c
  | .covered_call => covered_call c
  | .covered_put => covered_put c
  | .collar => collar c

/-- The spec's concrete scenario contract: strike 100, premium 10, not
expired (expiration after the current time). -/
def exampleContract : Contract := ⟨100, 10, 1, 0⟩

/-- A contract whose expiration lies before the current time. -/
def expiredContract : Contract := ⟨100, 10, 0, 1⟩

end SEngine

namespace PerLeg

/-- Instance state of the `OptionStrategies` class of
`src/src/option_strategies.py`: the constructor (lines 6-21) stores only
`self.strike` (the premium check and field are commented out). -/
structure PState where
  strike : ℚ
deriving DecidableEq

/-- `long_call` (lines 23-33): `max(0, spot - self.strike) - premium`. -/
def long_call (st : PState) (spot premium : ℚ) : ℚ :=
  max 0 (spot - st.strike) - premium

/-- `long_put` (lines 35-45): `max(0, self.strike - spot) - premium`. -/
def long_put (st : PState) (spot premium : ℚ) : ℚ :=
  max 0 (st.strike - spot) - premium

/-- `short_call` (lines 47-57): `premium - max(0, spot - self.strike)`. -/
def short_call (st : PState) (spot premium : ℚ) : ℚ :=
  premium - max 0 (spot - st.strike)

/-- `short_put` (lines 59-68): `premium - max(0, self.strike - spot)`. -/
def short_put (st : PState) (spot premium : ℚ) : ℚ :=
  premium - max 0 (st.strike - spot)

/-- `long_straddle` (lines 70-85): tuple of both leg payoffs and the net. -/
def long_straddle (st : PState) (spot call_premium put_premium : ℚ) : ℚ × ℚ × ℚ :=
  let long_call_payoff := long_call st spot call_premium
  let long_put_payoff := long_put st spot put_premium
  (long_call_payoff, long_put_payoff, long_call_payoff + long_put_payoff)

/-- `short_straddle` (lines 87-103). -/
def short_straddle (st : PState) (spot call_premium put_premium : ℚ) : ℚ × ℚ × ℚ :=
  let short_call_payoff := short_call st spot call_premium
  let short_put_payoff := short_put st spot put_premium
  (short_call_payoff, short_put_payoff, short_call_payoff + short_put_payoff)

/-- `long_synthetic` (lines 105-120): long call plus short put at the held
strike, returning both leg payoffs and the net. -/
def long_synthetic (st : PState) (spot call_premium put_premium : ℚ) : ℚ × ℚ × ℚ :=
  let long_call_payoff := long_call st spot call_premium
  let short_put_payoff := short_put st spot put_premium
  (long_call_payoff, short_put_payoff, long_call_payoff + short_put_payoff)

/-- `short_synthetic` (lines 122-138). -/
def short_synthetic (st : PState) (spot call_premium put_premium : ℚ) : ℚ × ℚ × ℚ :=
  let short_call_payoff := short_call st spot call_premium
  let long_put_payoff := long_put st spot put_premium
  (short_call_payoff, long_put_payoff, short_call_payoff + long_put_payoff)

/-- `bull_call_spread` (lines 140-162): reassigns `self.strike` to
`lower_strike` for the long call, then to `upper_strike` for the short
call; the state is left at the last assignment. -/
def bull_call_spread (st : PState)
    (spot lower_strike upper_strike lower_premium upper_premium : ℚ) :
    (ℚ × ℚ × ℚ) × PState :=
  let _ := st
  let st1 : PState := ⟨lower_strike⟩
  let long_call_payoff := long_call st1 spot lower_premium
  let st2 : PState := ⟨upper_strike⟩
  let short_call_payoff := short_call st2 spot upper_premium
  ((long_call_payoff, short_call_payoff, long_call_payoff + short_call_payoff), st2)

/-- `bull_put_spread` (lines 164-183).  Line 182 is the chained
assignment `net_payoff = long_put_payoff = short_put_payoff`, which
rebinds both `net_payoff` and `long_put_payoff` to the short leg's
payoff before the tuple is returned. -/
def bull_put_spread (st : PState)
    (spot lower_strike upper_strike lower_premium upper_premium : ℚ) :
    (ℚ × ℚ × ℚ) × PState :=
  let _ := st
  let st1 : PState := ⟨lower_strike⟩
  let long_put_payoff := long_put st1 spot lower_premium
  let st2 : PState := ⟨upper_strike⟩
  let short_put_payoff := short_put st2 spot upper_premium
  let net_payoff := short_put_payoff
  let long_put_payoff := short_put_payoff
  ((long_put_payoff, short_put_payoff, net_payoff), st2)

/-- `bear_call_spread`: the method is defined twice (lines 185-206 and
208-229); the second definition shadows the first, so the effective body
is lines 208-229.  It evaluates put legs: a long put at `upper_strike`,
then — line 225 — it assigns `self.strike = lower_premium` (a premium
value) before evaluating the short put. -/
def bear_call_spread (st : PState)
    (spot lower_strike upper_strike lower_premium upper_premium : ℚ) :
    (ℚ × ℚ × ℚ) × PState :=
  let _ := st
  let _ := lower_strike
  let st1 : PState := ⟨upper_strike⟩
  let long_put_payoff := long_put st1 spot upper_premium
  let st2 : PState := ⟨lower_premium⟩
  let short_put_payoff := short_put st2 spot lower_premium
  ((short_put_payoff, long_put_payoff, long_put_payoff + short_put_payoff), st2)

/-- `call_backspread` (lines 232-255). -/
def call_backspread (st : PState)
    (spot lower_strike upper_strike lower_premium upper_premium : ℚ) :
    (ℚ × ℚ × ℚ) × PState :=
  let _ := st
  let st1 : PState := ⟨lower_strike⟩
  let short_call_payoff := short_call st1 spot lower_premium
  let st2 : PState := ⟨upper_strike⟩
  let long_call_payoff := 2 * long_call st2 spot upper_premium
  ((short_call_payoff, long_call_payoff, short_call_payoff + long_call_payoff), st2)

/-- `put_backspread` (lines 257-281). -/
def put_backspread (st : PState)
    (spot lower_strike upper_strike lower_premium upper_premium : ℚ) :
    (ℚ × ℚ × ℚ) × PState :=
  let _ := st
  let st1 : PState := ⟨lower_strike⟩
  let short_put_payoff := short_put st1 spot lower_premium
  let st2 : PState := ⟨upper_strike⟩
  let long_put_payoff := 2 * long_put st2 spot upper_premium
  ((short_put_payoff, long_put_payoff, short_put_payoff + long_put_payoff), st2)

/-- `long_combo` (lines 283-305): note line 301 doubles the long call. -/
def long_combo (st : PState)
    (spot lower_strike upper_strike call_premium put_premium : ℚ) :
    (ℚ × ℚ × ℚ) × PState :=
  let _ := st
  let st1 : PState := ⟨lower_strike⟩
  let short_put_payoff := short_put st1 spot put_premium
  let st2 : PState := ⟨upper_strike⟩
  let long_call_payoff := 2 * long_call st2 spot call_premium
  ((short_put_payoff, long_call_payoff, short_put_payoff + long_call_payoff), st2)

/-- `long_strangle` (lines 307-328). -/
def long_strangle (st : PState)
    (spot lower_strike upper_strike call_premium put_premium : ℚ) :
    (ℚ × ℚ × ℚ) × PState :=
  let _ := st
  let st1 : PState := ⟨lower_strike⟩
  let long_put_payoff := long_put st1 spot put_premium
  let st2 : PState := ⟨upper_strike⟩
  let long_call_payoff := long_call st2 spot call_premium
  ((long_put_payoff, long_call_payoff, long_call_payoff + long_put_payoff), st2)

/-- `short_strangle` (lines 330-351). -/
def short_strangle (st : PState)
    (spot lower_strike upper_strike call_premium put_premium : ℚ) :
    (ℚ × ℚ × ℚ) × PState :=
  let _ := st
  let st1 : PState := ⟨lower_strike⟩
  let short_put_payoff := short_put st1 spot put_premium
  let st2 : PState := ⟨upper_strike⟩
  let short_call_payoff := short_call st2 spot call_premium
  ((short_put_payoff, short_call_payoff, short_put_payoff + short_call_payoff), st2)

/-- `strap` (lines 353-374): two long calls and one long put at the held
strike; `self.strike` is not touched. -/
def strap (st : PState) (spot call_premium put_premium : ℚ) :
    (ℚ × ℚ × ℚ) × PState :=
  let long_call_payoff := 2 * long_call st spot call_premium
  let long_put_payoff := long_put st spot put_premium
  ((long_call_payoff, long_put_payoff, long_call_payoff + long_put_payoff), st)

/-- `strip` (lines 376-394). -/
def strip (st : PState) (spot call_premium put_premium : ℚ) :
    (ℚ × ℚ × ℚ) × PState :=
  let long_call_payoff := long_call st spot call_premium
  let long_put_payoff := 2 * long_put st spot put_premium
  ((long_call_payoff, long_put_payoff, long_call_payoff + long_put_payoff), st)

/-- `long_call_ladder` (lines 396-428). -/
def long_call_ladder (st : PState)
    (spot lower_strike middle_strike upper_strike
     lower_premium middle_premium upper_premium : ℚ) :
    (ℚ × ℚ × ℚ × ℚ) × PState :=
  let _ := st
  let st1 : PState := ⟨lower_strike⟩
  let lower_call_payoff := long_call st1 spot lower_premium
  let st2 : PState := ⟨middle_strike⟩
  let middle_call_payoff := short_call st2 spot middle_premium
  let st3 : PState := ⟨upper_strike⟩
  let upper_call_payoff := long_call st3 spot upper_premium
  ((lower_call_payoff, middle_call_payoff, upper_call_payoff,
    lower_call_payoff + middle_call_payoff + upper_call_payoff), st3)

/-- `long_put_ladder` (lines 430-462). -/
def long_put_ladder (st : PState)
    (spot upper_strike middle_strike lower_strike
     upper_premium middle_premium lower_premium : ℚ) :
    (ℚ × ℚ × ℚ × ℚ) × PState :=
  let _ := st
  let st1 : PState := ⟨upper_strike⟩
  let upper_put_payoff := long_put st1 spot upper_premium
  let st2 : PState := ⟨middle_strike⟩
  let middle_put_payoff := short_put st2 spot middle_premium
  let st3 : PState := ⟨lower_strike⟩
  let lower_put_payoff := long_put st3 spot lower_premium
  ((upper_put_payoff, middle_put_payoff, lower_put_payoff,
    upper_put_payoff + middle_put_payoff + lower_put_payoff), st3)

/-- `short_call_ladder`: defined twice with identical bodies (lines
464-497 and 499-532); the effective body is the second. -/
def short_call_ladder (st : PState)
    (spot lower_strike middle_strike upper_strike
     lower_premium middle_premium upper_premium : ℚ) :
    (ℚ × ℚ × ℚ × ℚ) × PState :=
  let _ := st
  let st1 : PState := ⟨lower_strike⟩
  let lower_call_payoff := short_call st1 spot lower_premium
  let st2 : PState := ⟨middle_strike⟩
  let middle_call_payoff := long_call st2 spot middle_premium
  let st3 : PState := ⟨upper_strike⟩
  let upper_call_payoff := long_call st3 spot upper_premium
  ((lower_call_payoff, middle_call_payoff, upper_call_payoff,
    lower_call_payoff + middle_call_payoff + upper_call_payoff), st3)

/-- `short_put_ladder` (lines 534-567). -/
def short_put_ladder (st : PState)
    (spot upper_strike middle_strike lower_strike
     upper_premium middle_premium lower_premium : ℚ) :
    (ℚ × ℚ × ℚ × ℚ) × PState :=
  let _ := st
  let st1 : PState := ⟨upper_strike⟩
  let upper_put_payoff := short_put st1 spot upper_premium
  let st2 : PState := ⟨middle_strike⟩
  let middle_put_payoff := long_put st2 spot middle_premium
  let st3 : PState := ⟨lower_strike⟩
  let lower_put_payoff := long_put st3 spot lower_premium
  ((upper_put_payoff, middle_put_payoff, lower_put_payoff,
    upper_put_payoff + middle_put_payoff + lower_put_payoff), st3)

/-- `long_call_butterfly` (lines 569-602). -/
def long_call_butterfly (st : PState)
    (spot lower_strike middle_strike upper_strike
     lower_premium middle_premium upper_premium : ℚ) :
    (ℚ × ℚ × ℚ × ℚ) × PState :=
  let _ := st
  let st1 : PState := ⟨lower_strike⟩
  let lower_call_payoff := long_call st1 spot lower_premium
  let st2 : PState := ⟨middle_strike⟩
  let middle_call_payoff := 2 * short_call st2 spot middle_premium
  let st3 : PState := ⟨upper_strike⟩
  let upper_call_payoff := long_call st3 spot upper_premium
  ((lower_call_payoff, middle_call_payoff, upper_call_payoff,
    lower_call_payoff + middle_call_payoff + upper_call_payoff), st3)

/-- `short_call_butterfly` (lines 604-637). -/
def short_call_butterfly (st : PState)
    (spot lower_strike middle_strike upper_strike
     lower_premium middle_premium upper_premium : ℚ) :
    (ℚ × ℚ × ℚ × ℚ) × PState :=
  let _ := st
  let st1 : PState := ⟨lower_strike⟩
  let lower_call_payoff := short_call st1 spot lower_premium
  let st2 : PState := ⟨middle_strike⟩
  let middle_call_payoff := 2 * long_call st2 spot middle_premium
  let st3 : PState := ⟨upper_strike⟩
  let upper_call_payoff := short_call st3 spot upper_premium
  ((lower_call_payoff, middle_call_payoff, upper_call_payoff,
    lower_call_payoff + middle_call_payoff + upper_call_payoff), st3)

/-- `long_call_condor` (lines 639-679). -/
def long_call_condor (st : PState)
    (spot lower_strike lower_middle_strike upper_middle_strike upper_strike
     lower_premium lower_middle_premium upper_middle_premium upper_premium : ℚ) :
    (ℚ × ℚ × ℚ × ℚ × ℚ) × PState :=
  let _ := st
  let st1 : PState := ⟨lower_strike⟩
  let lower_call_payoff := long_call st1 spot lower_premium
  let st2 : PState := ⟨lower_middle_strike⟩
  let lower_middle_call_payoff := short_call st2 spot lower_middle_premium
  let st3 : PState := ⟨upper_middle_strike⟩
  let upper_middle_call_payoff := short_call st3 spot upper_middle_premium
  let st4 : PState := ⟨upper_strike⟩
  let upper_call_payoff := long_call st4 spot upper_premium
  ((lower_call_payoff, lower_middle_call_payoff, upper_middle_call_payoff,
    upper_call_payoff,
    lower_call_payoff + lower_middle_call_payoff + upper_middle_call_payoff +
      upper_call_payoff), st4)

/-- `short_call_condor` (lines 681-721). -/
def short_call_condor (st : PState)
    (spot lower_strike lower_middle_strike upper_middle_strike upper_strike
     lower_premium lower_middle_premium upper_middle_premium upper_premium : ℚ) :
    (ℚ × ℚ × ℚ × ℚ × ℚ) × PState :=
  let _ := st
  let st1 : PState := ⟨lower_strike⟩
  let lower_call_payoff := short_call st1 spot lower_premium
  let st2 : PState := ⟨lower_middle_strike⟩
  let lower_middle_call_payoff := long_call st2 spot lower_middle_premium
  let st3 : PState := ⟨upper_middle_strike⟩
  let upper_middle_call_payoff := long_call st3 spot upper_middle_premium
  let st4 : PState := ⟨upper_strike⟩
  let upper_call_payoff := short_call st4 spot upper_premium
  ((lower_call_payoff, lower_middle_call_payoff, upper_middle_call_payoff,
    upper_call_payoff,
    lower_call_payoff + lower_middle_call_payoff + upper_middle_call_payoff +
      upper_call_payoff), st4)

end PerLeg

/-! Dynamic-typing model for the constructors.  Python values that can
reach the constructors are modelled by `PyVal`; `isinstance(x, (int,
float))` becomes `isNumeric`, and `datetime.strptime(s, '%Y-%m-%d')`
becomes `parseYMD`, which accepts exactly the strings the CPython format
accepts: a 4-digit year, a dash, a 1-2 digit month, a dash, a 1-2 digit
day, nothing more, with the fields forming a valid calendar date. -/

/-- A Python value as seen by the constructors. -/
inductive PyVal where
  | int (n : ℤ)
  | float (q : ℚ)
  | str (s : String)
  | pynone
deriving DecidableEq

/-- `isinstance(v, (int, float))`. -/
def isNumeric : PyVal → Bool
  | .int _ => true
  | .float _ => true
  | _ => false

/-- Split a character list at every dash, keeping empty groups. -/
def splitDash : List Char → List (List Char)
  | [] => [[]]
  | c :: cs =>
      let rest := splitDash cs
      if c = '-' then [] :: rest
      else
        match rest with
        | [] => [[c]]
        | g :: gs => (c :: g) :: gs

/-- Value of a digit list read in base 10. -/
def digitsVal (l : List Char) : ℕ :=
  l.foldl (fun a c => 10 * a + (c.toNat - 48)) 0

/-- Gregorian leap-year rule used by `datetime`. -/
def isLeapYear (y : ℕ) : Bool :=
  (y % 4 == 0 && y % 100 != 0) || y % 400 == 0

/-- Length of a month as validated by `datetime`. -/
def daysInMonth (y m : ℕ) : ℕ :=
  if m = 2 then (if isLeapYear y then 29 else 28)
  else if m = 4 ∨ m = 6 ∨ m = 9 ∨ m = 11 then 30
  else 31

/-- `datetime.strptime(s, '%Y-%m-%d')`: `some (y, m, d)` when the string
parses, `none` when `strptime` raises `ValueError`. -/
def parseYMD (s : String) : Option (ℕ × ℕ × ℕ) :=
  match splitDash s.toList with
  | [ys, ms, ds] =>
      if ys.all Char.isDigit && ms.all Char.isDigit && ds.all Char.isDigit
          && ys.length == 4
          && (ms.length == 1 || ms.length == 2)
          && (ds.length == 1 || ds.length == 2) then
        let y := digitsVal ys
        let m := digitsVal ms
        let d := digitsVal ds
        if 1 ≤ y ∧ 1 ≤ m ∧ m ≤ 12 ∧ 1 ≤ d ∧ d ≤ daysInMonth y m then
          some (y, m, d)
        else none
      else none
  | _ => none

/-- Errors a constructor can raise.  `invalidParameter` is the
`ValueError("Strike price must be a number.")` of the per-leg engine;
`invalidDateFormat` is the `ValueError` that `strptime` raises for a
malformed expiration string. -/
inductive InitError where
  | invalidParameter
  | invalidDateFormat
deriving DecidableEq

/-- Constructor of the per-leg engine (`src/src/option_strategies.py`,
lines 6-21): only the strike is validated (the premium check is
commented out) and only the strike is stored. -/
def initPerLeg (strike : PyVal) : Except InitError PyVal :=
  if isNumeric strike then .ok strike else .error .invalidParameter

/-- Stored expiration of the effective strategy-engine class: a string
argument is replaced by the parsed date; any other value is stored
unchanged. -/
inductive ExpVal where
  | date (y m d : ℕ)
  | raw (v : PyVal)
deriving DecidableEq

/-- State produced by the effective strategy-engine constructor: the
strike and premium are stored untyped and unvalidated. -/
structure RawContract where
  strike : PyVal
  premium : PyVal
  expiration : ExpVal
  current : ℚ
deriving DecidableEq

/-- Constructor of the effective `OptionStrategies` class of
`src/src/strategy/option_strategies.py` (lines 99-106): a string
expiration is parsed with `strptime` (an unparseable one raises), any
other expiration is stored as given, `current_time` defaults to the
wall clock, and strike and premium are stored with no numeric check. -/
def initStrategy (strike premium expiration : PyVal) (current_time : Option ℚ)
    (wallClock : ℚ) : Except InitError RawContract :=
  match expiration with
  | .str s =>
      match parseYMD s with
      | some (y, m, d) =>
          .ok ⟨strike, premium, .date y m d, current_time.getD wallClock⟩
      | none => .error .invalidDateFormat
  | v => .ok ⟨strike, premium, .raw v, current_time.getD wallClock⟩

namespace PerLeg

/-- A call to one strategy method of the per-leg engine together with
its explicit arguments. -/
inductive PCall where
  | long_call (spot premium : ℚ)
  | long_put (spot premium : ℚ)
  | short_call (spot premium : ℚ)
  | short_put (spot premium : ℚ)
  | long_straddle (spot cp pp : ℚ)
  | short_straddle (spot cp pp : ℚ)
  | long_synthetic (spot cp pp : ℚ)
  | short_synthetic (spot cp pp : ℚ)
  | bull_call_spread (spot ls us lp up : ℚ)
  | bull_put_spread (spot ls us lp up : ℚ)
  | bear_call_spread (spot ls us lp up : ℚ)
  | call_backspread (spot ls us lp up : ℚ)
  | put_backspread (spot ls us lp up : ℚ)
  | long_combo (spot ls us cp pp : ℚ)
  | long_strangle (spot ls us cp pp : ℚ)
  | short_strangle (spot ls us cp pp : ℚ)
  | strap (spot cp pp : ℚ)
  | strip (spot cp pp : ℚ)
  | long_call_ladder (spot ls ms us lp mp up : ℚ)
  | long_put_ladder (spot us ms ls up mp lp : ℚ)
  | short_call_ladder (spot ls ms us lp mp up : ℚ)
  | short_put_ladder (spot us ms ls up mp lp : ℚ)
  | long_call_butterfly (spot ls ms us lp mp up : ℚ)
  | short_call_butterfly (spot ls ms us lp mp up : ℚ)
  | long_call_condor (spot ls lms ums us lp lmp ump up : ℚ)
  | short_call_condor (spot ls lms ums us lp lmp ump up : ℚ)
deriving DecidableEq

/-- Flatten the heterogeneous return tuples into a list of payoffs. -/
def res1 (st : PState) (x : ℚ) : List ℚ × PState := ([x], st)

/-- Flatten a three-payoff tuple. -/
def res3 : (ℚ × ℚ × ℚ) × PState → List ℚ × PState
  | ((a, b, c), st) => ([a, b, c], st)

/-- Flatten a four-payoff tuple. -/
def res4 : (ℚ × ℚ × ℚ × ℚ) × PState → List ℚ × PState
  | ((a, b, c, d), st) => ([a, b, c, d], st)

/-- Flatten a five-payoff tuple. -/
def res5 : (ℚ × ℚ × ℚ × ℚ × ℚ) × PState → List ℚ × PState
  | ((a, b, c, d, e), st) => ([a, b, c, d, e], st)

/-- Execute one strategy-method call of the per-leg engine.  The first
argument is the wall-clock time at which the call is made: the Python
runtime has a clock available (the module imports `datetime`), but no
method body reads it, so the parameter does not occur in any branch. -/
def run (now : ℚ) (st : PState) : PCall → List ℚ × PState
  | .long_call spot p => let _ := now; res1 st (long_call st spot p)
  | .long_put spot p => res1 st (long_put st spot p)
  | .short_call spot p => res1 st (short_call st spot p)
  | .short_put spot p => res1 st (short_put st spot p)
  | .long_straddle spot cp pp => res3 (long_straddle st spot cp pp, st)
  | .short_straddle spot cp pp => res3 (short_straddle st spot cp pp, st)
  | .long_synthetic spot cp pp => res3 (long_synthetic st spot cp pp, st)
  | .short_synthetic spot cp pp => res3 (short_synthetic st spot cp pp, st)
  | .bull_call_spread spot ls us lp up => res3 (bull_call_spread st spot ls us lp up)
  | .bull_put_spread spot ls us lp up => res3 (bull_put_spread st spot ls us lp up)
  | .bear_call_spread spot ls us lp up => res3 (bear_call_spread st spot ls us lp up)
  | .call_backspread spot ls us lp up => res3 (call_backspread st spot ls us lp up)
  | .put_backspread spot ls us lp up => res3 (put_backspread st spot ls us lp up)
  | .long_combo spot ls us cp pp => res3 (long_combo st spot ls us cp pp)
  | .long_strangle spot ls us cp pp => res3 (long_strangle st spot ls us cp pp)
  | .short_strangle spot ls us cp pp => res3 (short_strangle st spot ls us cp pp)
  | .strap spot cp pp => res3 (strap st spot cp pp)
  | .strip spot cp pp => res3 (strip st spot cp pp)
  | .long_call_ladder spot ls ms us lp mp up =>
      res4 (long_call_ladder st spot ls ms us lp mp up)
  | .long_put_ladder spot us ms ls up mp lp =>
      res4 (long_put_ladder st spot us ms ls up mp lp)
  | .short_call_ladder spot ls ms us lp mp up =>
      res4 (short_call_ladder st spot ls ms us lp mp up)
  | .short_put_ladder spot us ms ls up mp lp =>
      res4 (short_put_ladder st spot us ms ls up mp lp)
  | .long_call_butterfly spot ls ms us lp mp up =>
      res4 (long_call_butterfly st spot ls ms us lp mp up)
  | .short_call_butterfly spot ls ms us lp mp up =>
      res4 (short_call_butterfly st spot ls ms us lp mp up)
  | .long_call_condor spot ls lms ums us lp lmp ump up =>
      res5 (long_call_condor st spot ls lms ums us lp lmp ump up)
  | .short_call_condor spot ls lms ums us lp lmp ump up =>
      res5 (short_call_condor st spot ls lms ums us lp lmp ump up)

end PerLeg


/-- Auxiliary: the `min`-clamped short-leg formula equals premium minus
the clamped intrinsic value. -/
theorem min_sub_eq_sub_max (p a : ℚ) : min (p - a) p = p - max a 0 := by
  rcases le_total a 0 with h | h
  · rw [max_eq_right h, sub_zero, min_eq_right (by linarith)]
  · rw [max_eq_left h, min_eq_left (by linarith)]

/-- Claim C1: for every spot price `S`, on a non-expired contract with
strike `K` and premium `p`, `long_call S` returns `max (S - K) 0 - p`
(likewise the per-leg engine's `long_call`), on an expired contract it
returns `-p`, and in the spec's concrete scenario (strike 100, premium
10, not expired) `long_call 90 = -10`, `long_call 100 = -10` and
`long_call 120 = 10`. -/
theorem long_call_payoff_spec :
    (∀ (c : SEngine.Contract) (S : ℚ), SEngine.expired c = false →
      SEngine.long_call c S = max (S - c.strike) 0 - c.premium) ∧
    (∀ (c : SEngine.Contract) (S : ℚ), SEngine.expired c = true →
      SEngine.long_call c S = -c.premium) ∧
    (∀ (st : PerLeg.PState) (S p : ℚ),
      PerLeg.long_call st S p = max (S - st.strike) 0 - p) ∧
    SEngine.long_call SEngine.exampleContract 90 = -10 ∧
    SEngine.long_call SEngine.exampleContract 100 = -10 ∧
    SEngine.long_call SEngine.exampleContract 120 = 10 := by
  refine ⟨fun c S h => ?_, fun c S h => ?_, fun st S p => ?_, ?_, ?_, ?_⟩
  · simp [SEngine.long_call, h]
  · simp [SEngine.long_call, h]
  · rw [PerLeg.long_call, max_comm]
  · norm_num [SEngine.long_call, SEngine.expired, SEngine.exampleContract, max_def]
  · norm_num [SEngine.long_call, SEngine.expired, SEngine.exampleContract, max_def]
  · norm_num [SEngine.long_call, SEngine.expired, SEngine.exampleContract, max_def]

/-- Witness for C1 at the concrete scenario contract. -/
theorem long_call_payoff_spec_witness :
    SEngine.expired SEngine.exampleContract = false ∧
    SEngine.long_call SEngine.exampleContract 120 =
      max ((120 : ℚ) - SEngine.exampleContract.strike) 0 -
        SEngine.exampleContract.premium :=
  ⟨by decide, long_call_payoff_spec.1 SEngine.exampleContract 120 (by decide)⟩

/-- Claim C2 counterexample: `covered_call` is a strategy function of
the engine, yet on an expired contract its value still depends on the
spot price, because the stock-ownership term `spot - strike` is outside
the expiration check. -/
theorem expired_flat_counterexample :
    SEngine.expired SEngine.expiredContract = true ∧
    SEngine.apply SEngine.expiredContract SEngine.SStrat.covered_call 0 ≠
      SEngine.apply SEngine.expiredContract SEngine.SStrat.covered_call 1 := by
  refine ⟨by decide, ?_⟩
  norm_num [SEngine.apply, SEngine.covered_call, SEngine.short_call,
    SEngine.expired, SEngine.expiredContract]

/-- Claim C2 (amended): every strategy function of the engine except
`covered_call`, `covered_put` and `collar` — whose stock-leg term
`spot - strike` (or `strike - spot`) is not guarded by the expiration
check — yields a spot-independent result on an expired contract. -/
theorem expired_flat_amended :
    ∀ f : SEngine.SStrat, f ≠ SEngine.SStrat.covered_call →
      f ≠ SEngine.SStrat.covered_put → f ≠ SEngine.SStrat.collar →
      ∀ c : SEngine.Contract, SEngine.expired c = true →
      ∀ s1 s2 : ℚ, SEngine.apply c f s1 = SEngine.apply c f s2 := by
  intro f h1 h2 h3 c hc s1 s2
  cases f <;> simp_all [SEngine.apply, SEngine.long_call, SEngine.long_put,
    SEngine.short_call, SEngine.short_put, SEngine.long_straddle,
    SEngine.short_straddle, SEngine.long_synthetic, SEngine.short_synthetic,
    SEngine.bull_call_spread, SEngine.bull_put_spread, SEngine.bear_call_spread,
    SEngine.bear_put_spread, SEngine.call_backspread, SEngine.put_backspread,
    SEngine.long_combo, SEngine.long_strangle, SEngine.short_strangle,
    SEngine.strap, SEngine.strip, SEngine.long_call_butterfly,
    SEngine.long_put_butterfly, SEngine.covered_call, SEngine.covered_put,
    SEngine.collar]

/-- Witness for the amended C2: `long_call` on an expired contract gives
the same value at spot 0 and spot 1000000. -/
theorem expired_flat_amended_witness :
    SEngine.SStrat.long_call ≠ SEngine.SStrat.covered_call ∧
    SEngine.SStrat.long_call ≠ SEngine.SStrat.covered_put ∧
    SEngine.SStrat.long_call ≠ SEngine.SStrat.collar ∧
    SEngine.expired SEngine.expiredContract = true ∧
    SEngine.apply SEngine.expiredContract SEngine.SStrat.long_call 0 =
      SEngine.apply SEngine.expiredContract SEngine.SStrat.long_call 1000000 :=
  ⟨by decide, by decide, by decide, by decide,
    expired_flat_amended SEngine.SStrat.long_call (by decide) (by decide)
      (by decide) SEngine.expiredContract (by decide) 0 1000000⟩

/-- Claim C3: on a non-expired contract `short_call S` equals
`premium - max (S - strike) 0` and never exceeds the premium; the
per-leg engine's `short_call` satisfies the same formula and bound. -/
theorem short_call_premium_cap :
    (∀ (c : SEngine.Contract) (S : ℚ), SEngine.expired c = false →
      SEngine.short_call c S = c.premium - max (S - c.strike) 0) ∧
    (∀ (c : SEngine.Contract) (S : ℚ), SEngine.expired c = false →
      SEngine.short_call c S ≤ c.premium) ∧
    (∀ (st : PerLeg.PState) (S p : ℚ),
      PerLeg.short_call st S p = p - max (S - st.strike) 0 ∧
      PerLeg.short_call st S p ≤ p) := by
  refine ⟨fun c S h => ?_, fun c S h => ?_, fun st S p => ⟨?_, ?_⟩⟩
  · simp only [SEngine.short_call, h, Bool.false_eq_true, if_false]
    exact min_sub_eq_sub_max _ _
  · simp only [SEngine.short_call, h, Bool.false_eq_true, if_false]
    exact min_le_right _ _
  · rw [PerLeg.short_call, max_comm]
  · exact sub_le_self _ (le_max_left 0 _)

/-- Witness for C3 at the concrete scenario contract and spot 120. -/
theorem short_call_premium_cap_witness :
    SEngine.expired SEngine.exampleContract = false ∧
    SEngine.short_call SEngine.exampleContract 120 ≤
      SEngine.exampleContract.premium ∧
    PerLeg.short_call ⟨100⟩ 120 8 ≤ 8 :=
  ⟨by decide, short_call_premium_cap.2.1 SEngine.exampleContract 120 (by decide),
    (short_call_premium_cap.2.2 ⟨100⟩ 120 8).2⟩

/-- Claim C4 counterexample: the effective strategy-engine constructor
accepts a non-numeric strike and a non-numeric premium (with a
well-formed expiration) and returns a constructed engine instead of
failing. -/
theorem init_validation_counterexample :
    isNumeric (PyVal.str "abc") = false ∧
    isNumeric (PyVal.str "xyz") = false ∧
    initStrategy (PyVal.str "abc") (PyVal.str "xyz")
        (PyVal.str "2024-01-05") none 0 =
      Except.ok ⟨PyVal.str "abc", PyVal.str "xyz", ExpVal.date 2024 1 5, 0⟩ :=
  ⟨rfl, rfl, rfl⟩

/-- Claim C4 (amended): the per-leg constructor fails with
`InvalidParameter` exactly when its strike is not numeric (it takes no
premium; that check is commented out), while the effective
strategy-engine constructor performs no numeric validation of strike or
premium and fails exactly when the expiration is a string that does not
parse as `YYYY-MM-DD`. -/
theorem init_validation_amended :
    (∀ v : PyVal, isNumeric v = false →
      initPerLeg v = Except.error InitError.invalidParameter) ∧
    (∀ v : PyVal, isNumeric v = true → initPerLeg v = Except.ok v) ∧
    (∀ (strike premium : PyVal) (s : String) (ct : Option ℚ) (wc : ℚ),
      parseYMD s = none →
      initStrategy strike premium (PyVal.str s) ct wc =
        Except.error InitError.invalidDateFormat) ∧
    (∀ (strike premium : PyVal) (s : String) (y m d : ℕ)
        (ct : Option ℚ) (wc : ℚ),
      parseYMD s = some (y, m, d) →
      initStrategy strike premium (PyVal.str s) ct wc =
        Except.ok ⟨strike, premium, ExpVal.date y m d, ct.getD wc⟩) ∧
    (∀ (strike premium : PyVal) (n : ℤ) (ct : Option ℚ) (wc : ℚ),
      initStrategy strike premium (PyVal.int n) ct wc =
        Except.ok ⟨strike, premium, ExpVal.raw (PyVal.int n), ct.getD wc⟩) := by
  refine ⟨fun v h => ?_, fun v h => ?_, fun strike premium s ct wc h => ?_,
    fun strike premium s y m d ct wc h => ?_, fun strike premium n ct wc => rfl⟩
  · simp [initPerLeg, h]
  · simp [initPerLeg, h]
  · simp [initStrategy, h]
  · simp [initStrategy, h]

/-- Witness for the amended C4 at concrete constructor inputs. -/
theorem init_validation_amended_witness :
    isNumeric (PyVal.str "abc") = false ∧
    initPerLeg (PyVal.str "abc") = Except.error InitError.invalidParameter ∧
    isNumeric (PyVal.int 100) = true ∧
    initPerLeg (PyVal.int 100) = Except.ok (PyVal.int 100) ∧
    parseYMD "nope" = none ∧
    initStrategy (PyVal.int 1) (PyVal.int 2) (PyVal.str "nope") none 0 =
      Except.error InitError.invalidDateFormat ∧
    parseYMD "2024-01-05" = some (2024, 1, 5) ∧
    initStrategy (PyVal.int 1) (PyVal.int 2) (PyVal.str "2024-01-05") none 0 =
      Except.ok ⟨PyVal.int 1, PyVal.int 2, ExpVal.date 2024 1 5, 0⟩ :=
  ⟨rfl, init_validation_amended.1 _ rfl, rfl, init_validation_amended.2.1 _ rfl,
    rfl, init_validation_amended.2.2.1 _ _ _ _ _ rfl,
    rfl, init_validation_amended.2.2.2.1 _ _ _ _ _ _ _ _ rfl⟩

/-- Claim C5 counterexample: after `bull_call_spread`, the held strike
equals the upper strike (110), not its value before the call (100), and
a primitive `long_call` evaluation at the post-call state differs from
the same evaluation at the pre-call state. -/
theorem composite_strike_counterexample :
    (PerLeg.bull_call_spread ⟨100⟩ 100 90 110 8 3).2.strike ≠
      (⟨100⟩ : PerLeg.PState).strike ∧
    PerLeg.long_call (PerLeg.bull_call_spread ⟨100⟩ 100 90 110 8 3).2 120 8 ≠
      PerLeg.long_call ⟨100⟩ 120 8 := by
  refine ⟨?_, ?_⟩
  · norm_num [PerLeg.bull_call_spread]
  · norm_num [PerLeg.bull_call_spread, PerLeg.long_call, max_def]

/-- Claim C5 (amended): every multi-leg strategy of the per-leg engine
that reassigns the held strike leaves it equal to its last assignment —
the last leg's strike, except for the shadowed bear call spread, whose
last assignment is the lower premium — rather than restoring it; the
multi-leg strategies that set no per-leg strike (the straddles, the
synthetics, `strap` and `strip`) leave the state unchanged. -/
theorem composite_strike_mutation :
    (∀ (st : PerLeg.PState) (spot ls us lp up : ℚ),
      (PerLeg.bull_call_spread st spot ls us lp up).2 = ⟨us⟩) ∧
    (∀ (st : PerLeg.PState) (spot ls us lp up : ℚ),
      (PerLeg.bull_put_spread st spot ls us lp up).2 = ⟨us⟩) ∧
    (∀ (st : PerLeg.PState) (spot ls us lp up : ℚ),
      (PerLeg.bear_call_spread st spot ls us lp up).2 = ⟨lp⟩) ∧
    (∀ (st : PerLeg.PState) (spot ls us lp up : ℚ),
      (PerLeg.call_backspread st spot ls us lp up).2 = ⟨us⟩) ∧
    (∀ (st : PerLeg.PState) (spot ls us lp up : ℚ),
      (PerLeg.put_backspread st spot ls us lp up).2 = ⟨us⟩) ∧
    (∀ (st : PerLeg.PState) (spot ls us cp pp : ℚ),
      (PerLeg.long_combo st spot ls us cp pp).2 = ⟨us⟩) ∧
    (∀ (st : PerLeg.PState) (spot ls us cp pp : ℚ),
      (PerLeg.long_strangle st spot ls us cp pp).2 = ⟨us⟩) ∧
    (∀ (st : PerLeg.PState) (spot ls us cp pp : ℚ),
      (PerLeg.short_strangle st spot ls us cp pp).2 = ⟨us⟩) ∧
    (∀ (st : PerLeg.PState) (spot ls ms us lp mp up : ℚ),
      (PerLeg.long_call_ladder st spot ls ms us lp mp up).2 = ⟨us⟩) ∧
    (∀ (st : PerLeg.PState) (spot us ms ls up mp lp : ℚ),
      (PerLeg.long_put_ladder st spot us ms ls up mp lp).2 = ⟨ls⟩) ∧
    (∀ (st : PerLeg.PState) (spot ls ms us lp mp up : ℚ),
      (PerLeg.short_call_ladder st spot ls ms us lp mp up).2 = ⟨us⟩) ∧
    (∀ (st : PerLeg.PState) (spot us ms ls up mp lp : ℚ),
      (PerLeg.short_put_ladder st spot us ms ls up mp lp).2 = ⟨ls⟩) ∧
    (∀ (st : PerLeg.PState) (spot ls ms us lp mp up : ℚ),
      (PerLeg.long_call_butterfly st spot ls ms us lp mp up).2 = ⟨us⟩) ∧
    (∀ (st : PerLeg.PState) (spot ls ms us lp mp up : ℚ),
      (PerLeg.short_call_butterfly st spot ls ms us lp mp up).2 = ⟨us⟩) ∧
    (∀ (st : PerLeg.PState) (spot ls lms ums us lp lmp ump up : ℚ),
      (PerLeg.long_call_condor st spot ls lms ums us lp lmp ump up).2 = ⟨us⟩) ∧
    (∀ (st : PerLeg.PState) (spot ls lms ums us lp lmp ump up : ℚ),
      (PerLeg.short_call_condor st spot ls lms ums us lp lmp ump up).2 = ⟨us⟩) ∧
    (∀ (st : PerLeg.PState) (spot cp pp : ℚ),
      (PerLeg.strap st spot cp pp).2 = st) ∧
    (∀ (st : PerLeg.PState) (spot cp pp : ℚ),
      (PerLeg.strip st spot cp pp).2 = st) ∧
    (∀ (t : ℚ) (st : PerLeg.PState) (spot cp pp : ℚ),
      (PerLeg.run t st (PerLeg.PCall.long_straddle spot cp pp)).2 = st) ∧
    (∀ (t : ℚ) (st : PerLeg.PState) (spot cp pp : ℚ),
      (PerLeg.run t st (PerLeg.PCall.short_straddle spot cp pp)).2 = st) ∧
    (∀ (t : ℚ) (st : PerLeg.PState) (spot cp pp : ℚ),
      (PerLeg.run t st (PerLeg.PCall.long_synthetic spot cp pp)).2 = st) ∧
    (∀ (t : ℚ) (st : PerLeg.PState) (spot cp pp : ℚ),
      (PerLeg.run t st (PerLeg.PCall.short_synthetic spot cp pp)).2 = st) :=
  ⟨fun _ _ _ _ _ _ => rfl, fun _ _ _ _ _ _ => rfl, fun _ _ _ _ _ _ => rfl,
    fun _ _ _ _ _ _ => rfl, fun _ _ _ _ _ _ => rfl, fun _ _ _ _ _ _ => rfl,
    fun _ _ _ _ _ _ => rfl, fun _ _ _ _ _ _ => rfl,
    fun _ _ _ _ _ _ _ _ => rfl, fun _ _ _ _ _ _ _ _ => rfl,
    fun _ _ _ _ _ _ _ _ => rfl, fun _ _ _ _ _ _ _ _ => rfl,
    fun _ _ _ _ _ _ _ _ => rfl, fun _ _ _ _ _ _ _ _ => rfl,
    fun _ _ _ _ _ _ _ _ _ _ => rfl, fun _ _ _ _ _ _ _ _ _ _ => rfl,
    fun _ _ _ _ => rfl, fun _ _ _ _ => rfl,
    fun _ _ _ _ _ => rfl, fun _ _ _ _ _ => rfl,
    fun _ _ _ _ _ => rfl, fun _ _ _ _ _ => rfl⟩

/-- Claim C6: on a non-expired contract, `long_call` and `short_call`
with the same strike and premium sum to zero at every spot price. -/
theorem long_short_call_zero_sum :
    ∀ (c : SEngine.Contract) (S : ℚ), SEngine.expired c = false →
      SEngine.long_call c S + SEngine.short_call c S = 0 := by
  intro c S h
  simp only [SEngine.long_call, SEngine.short_call, h, Bool.false_eq_true,
    if_false]
  rw [min_sub_eq_sub_max]
  ring

/-- Witness for C6 at the concrete scenario contract and spot 120. -/
theorem long_short_call_zero_sum_witness :
    SEngine.expired SEngine.exampleContract = false ∧
    SEngine.long_call SEngine.exampleContract 120 +
      SEngine.short_call SEngine.exampleContract 120 = 0 :=
  ⟨by decide, long_short_call_zero_sum SEngine.exampleContract 120 (by decide)⟩

/-- Claim C7: `long_synthetic` equals `long_call + short_put` exactly,
both for the scalar form of the strategy engine and for the net payoff
of the tuple-returning per-leg form. -/
theorem long_synthetic_parity :
    (∀ (c : SEngine.Contract) (S : ℚ),
      SEngine.long_synthetic c S =
        SEngine.long_call c S + SEngine.short_put c S) ∧
    (∀ (st : PerLeg.PState) (spot cp pp : ℚ),
      (PerLeg.long_synthetic st spot cp pp).2.2 =
        PerLeg.long_call st spot cp + PerLeg.short_put st spot pp) :=
  ⟨fun _ _ => rfl, fun _ _ _ _ => rfl⟩

/-- Claim C8: at engine strike 100, spot 100, lower strike 90, upper
strike 110, lower premium 5, upper premium 8, the long put leg is `-5`
and the short put leg is `-2`, but `bull_put_spread` returns
`((-2, -2, -2), strike 110)`: the chained assignment on line 182
replaces both the net payoff and the reported long leg by the short
leg's payoff, so the net is not the sum of the two legs. -/
theorem bull_put_spread_chained_assignment :
    PerLeg.bull_put_spread ⟨100⟩ 100 90 110 5 8 = ((-2, -2, -2), ⟨110⟩) ∧
    PerLeg.long_put ⟨90⟩ 100 5 = -5 ∧
    PerLeg.short_put ⟨110⟩ 100 8 = -2 ∧
    PerLeg.long_put ⟨90⟩ 100 5 + PerLeg.short_put ⟨110⟩ 100 8 ≠
      (PerLeg.bull_put_spread ⟨100⟩ 100 90 110 5 8).1.2.2 := by
  norm_num [PerLeg.bull_put_spread, PerLeg.long_put, PerLeg.short_put, max_def,
    PerLeg.PState.mk.injEq, Prod.ext_iff]

/-- Claim C9: the effective `bear_call_spread` (its second definition
shadows the first) computes put legs and, at spot 50 with lower strike
90, upper strike 110, lower premium 5 and upper premium 8, evaluates
its short leg at held strike 5 — the lower premium, not a strike —
returning `((5, 52, 57), strike 5)`; evaluating the same short put at
the claimed lower strike 90 gives a different payoff. -/
theorem bear_call_spread_premium_strike :
    PerLeg.bear_call_spread ⟨100⟩ 50 90 110 5 8 = ((5, 52, 57), ⟨5⟩) ∧
    (PerLeg.bear_call_spread ⟨100⟩ 50 90 110 5 8).2.strike = 5 ∧
    PerLeg.short_put ⟨5⟩ 50 5 ≠ PerLeg.short_put ⟨90⟩ 50 5 := by
  norm_num [PerLeg.bear_call_spread, PerLeg.long_put, PerLeg.short_put, max_def,
    PerLeg.PState.mk.injEq, Prod.ext_iff]

/-- Claim C10: running any strategy method of the per-leg engine gives
the same result at any two wall-clock times, and the result is
determined by the explicit arguments together with the held strike. -/
theorem per_leg_time_and_state_determinism :
    (∀ (t1 t2 : ℚ) (st : PerLeg.PState) (c : PerLeg.PCall),
      PerLeg.run t1 st c = PerLeg.run t2 st c) ∧
    (∀ (t : ℚ) (st1 st2 : PerLeg.PState) (c : PerLeg.PCall),
      st1.strike = st2.strike → PerLeg.run t st1 c = PerLeg.run t st2 c) := by
  refine ⟨fun t1 t2 st c => ?_, fun t st1 st2 c h => ?_⟩
  · cases c <;> rfl
  · have hst : st1 = st2 := by cases st1; cases st2; simpa using h
    rw [hst]

/-- Witness for C10 at a concrete call, two times and two equal-strike
states. -/
theorem per_leg_time_and_state_determinism_witness :
    PerLeg.run 0 ⟨100⟩ (PerLeg.PCall.long_call 120 8) =
      PerLeg.run 365 ⟨100⟩ (PerLeg.PCall.long_call 120 8) ∧
    PerLeg.run 0 ⟨100⟩ (PerLeg.PCall.long_call 120 8) =
      PerLeg.run 0 ⟨100⟩ (PerLeg.PCall.long_call 120 8) :=
  ⟨per_leg_time_and_state_determinism.1 0 365 ⟨100⟩ (PerLeg.PCall.long_call 120 8),
    per_leg_time_and_state_determinism.2 0 ⟨100⟩ ⟨100⟩
      (PerLeg.PCall.long_call 120 8) rfl⟩
